import Mathlib

/-!
Shallow embedding of the student CRUD service
(`src/index.js`, `src/databaseConnection.js`).

The HTTP layer, the `pg` pool and the PostgreSQL engine are external
collaborators; the SQL statements issued by the handlers are modelled by
executable functions on an explicit store state, following the documented
semantics of the statements the code sends (`SELECT ... ORDER BY`,
`INSERT ... RETURNING *` under a UNIQUE constraint, `UPDATE ... SET
x = COALESCE($i, x) ... RETURNING *`, `DELETE ... RETURNING *`).
Connection acquisition/release (`pool.connect()` / `client.release()`)
is tracked by counters so that the resource discipline of each handler
is visible in the model.  A possible query failure is injected as an
`Option SqlError` argument: `none` means the statement executes
normally, `some e` means the awaited query rejects with `e` and control
jumps to the handler's `catch` block, exactly as in the source.
-/

namespace CRUD

/-- A row of the `students` table (schema created in `initTable`,
`src/index.js` lines 15-24).  `created_at` is the insertion timestamp
defaulted by the engine, modelled as a natural number clock. -/
structure Student where
  id : Nat
  name : String
  age : Int
  rollnumber : String
  city : String
  created_at : Nat
deriving Repr, DecidableEq

/-- A database error as surfaced by `pg`: the handlers only inspect
`err.code` (`src/index.js` line 127). -/
structure SqlError where
  code : String
deriving Repr, DecidableEq

/-- The state behind the pool: the rows of the `students` table, the
`SERIAL` counter feeding `id`, and the clock feeding `created_at`. -/
structure DB where
  rows : List Student
  nextId : Nat
  now : Nat
deriving Repr, DecidableEq

/-- Well-formedness maintained by the engine's UNIQUE constraint on
`rollnumber`: all rollnumbers in the table are distinct. -/
def DB.wf (db : DB) : Prop :=
  (db.rows.map Student.rollnumber).Nodup

instance (db : DB) : Decidable db.wf := by
  unfold DB.wf; infer_instance

/-- Payload placed in the `data` field of a response envelope: a single
record (`result.rows[0]`) or the whole row list (`result.rows`). -/
inductive RespData where
  | one (s : Student)
  | many (l : List Student)
deriving Repr, DecidableEq

/-- The uniform JSON envelope `{success, message?, data?, count?}`
together with the HTTP status it is sent with. -/
structure Response where
  status : Nat
  success : Bool
  message : Option String
  data : Option RespData
  count : Option Nat
deriving Repr, DecidableEq

/-- Result of running one handler: the HTTP response, the store state
afterwards, and how many pooled connections the handler took
(`pool.connect()`) and gave back (`client.release()`). -/
structure HResult where
  resp : Response
  db : DB
  acquired : Nat
  released : Nat
deriving Repr, DecidableEq

/-! ### SQL statement semantics -/

/-- Ordering used by `ORDER BY rollnumber` (ascending string order). -/
def rollLe (a b : Student) : Prop :=
  a.rollnumber ≤ b.rollnumber

instance : DecidableRel rollLe := by
  unfold rollLe; infer_instance

instance : IsTotal Student rollLe :=
  ⟨fun a b => le_total a.rollnumber b.rollnumber⟩

instance : IsTrans Student rollLe :=
  ⟨fun _ _ _ h h' => le_trans h h'⟩

/-- Result set of `SELECT * FROM students ORDER BY rollnumber`
(`src/index.js` line 52). -/
def selectAllOrdered (db : DB) : List Student :=
  List.insertionSort rollLe db.rows

/-- Result set of `SELECT * FROM students WHERE rollnumber = $1`
(`src/index.js` line 76). -/
def selectByRoll (db : DB) (roll : String) : List Student :=
  db.rows.filter (fun s => s.rollnumber == roll)

/-- Semantics of `INSERT INTO students (name, age, rollnumber, city)
VALUES ($1,$2,$3,$4) RETURNING *` (`src/index.js` line 115) under the
UNIQUE constraint on `rollnumber`: a duplicate key raises the
PostgreSQL unique-violation error, code `23505`; otherwise the engine
assigns `id` and `created_at` and returns the new row. -/
def insertStudent (db : DB) (name : String) (age : Int)
    (roll : String) (city : String) : Except SqlError (DB × Student) :=
  if db.rows.any (fun s => s.rollnumber == roll) then
    .error { code := "23505" }
  else
    let s : Student :=
      { id := db.nextId, name := name, age := age,
        rollnumber := roll, city := city, created_at := db.now }
    .ok ({ db with rows := db.rows ++ [s], nextId := db.nextId + 1 }, s)

/-- One row after `SET name = COALESCE($1, name), age = COALESCE($2,
age), city = COALESCE($3, city)`: a NULL parameter keeps the stored
value (`src/index.js` lines 149-152). -/
def coalesceRow (name : Option String) (age : Option Int)
    (city : Option String) (s : Student) : Student :=
  { s with name := name.getD s.name, age := age.getD s.age,
           city := city.getD s.city }

/-- Semantics of the handler's `UPDATE ... WHERE rollnumber = $4
RETURNING *`: rows matching the key are rewritten through the COALESCE
assignments, others are untouched; the rewritten matching rows are the
result set. -/
def updateRows (db : DB) (name : Option String) (age : Option Int)
    (city : Option String) (roll : String) : DB × List Student :=
  let upd := fun s =>
    if s.rollnumber == roll then coalesceRow name age city s else s
  let newRows := db.rows.map upd
  (({ db with rows := newRows }),
    newRows.filter (fun s => s.rollnumber == roll))

/-- Semantics of `DELETE FROM students WHERE rollnumber = $1
RETURNING *` (`src/index.js` line 186): matching rows are removed and
returned. -/
def deleteRows (db : DB) (roll : String) : DB × List Student :=
  (({ db with rows := db.rows.filter (fun s => !(s.rollnumber == roll)) }),
    db.rows.filter (fun s => s.rollnumber == roll))

/-! ### JSON request bodies -/

/-- A field of a parsed JSON body: missing from the object, present
with value `null`, or present with a value. -/
inductive JsonField (α : Type) where
  | absent
  | null
  | val (a : α)
deriving Repr, DecidableEq

/-- What `pg` sends for the field when it is used as a query parameter:
destructuring an absent key yields `undefined`, and `pg` serializes
both `undefined` and `null` as SQL NULL; a present value is passed
through. -/
def JsonField.toParam : JsonField α → Option α
  | .absent => none
  | .null => none
  | .val a => some a

/-- Body of `POST /students` as destructured on `src/index.js` line
104: each field is the value found, or `none` when absent or `null`
(both make the JS `!field` test true for these types, like the other
falsy values captured by `falsyStr` / `falsyInt`). -/
structure CreateBody where
  name : Option String
  age : Option Int
  rollnumber : Option String
  city : Option String
deriving Repr, DecidableEq

/-- JS truthiness test `!x` for a string-typed JSON field: fails for
absent/null and for the empty string. -/
def falsyStr : Option String → Bool
  | none => true
  | some s => s.isEmpty

/-- JS truthiness test `!x` for a number-typed JSON field: fails for
absent/null and for `0`. -/
def falsyInt : Option Int → Bool
  | none => true
  | some n => n == 0

/-- Body of `PUT /students/:rollnumber` as destructured on
`src/index.js` line 145; the update handler needs the three-way
distinction to feed `JsonField.toParam`. -/
structure UpdateBody where
  name : JsonField String
  age : JsonField Int
  city : JsonField String
deriving Repr, DecidableEq

/-! ### Route handlers (`src/index.js`)

Each handler mirrors the source line by line.  `fault = none` means the
awaited query executes normally; `fault = some e` means it rejects with
`e`, so control jumps to the `catch` block.  The `acquired` / `released`
counters record the `pool.connect()` and `client.release()` calls
actually executed on that path; note that in the source every
`client.release()` sits on the straight-line path after the query, so a
rejected query skips it (there is no `finally`). -/

/-- Handler of `GET /students` (`src/index.js` lines 48-68). -/
def getAllStudents (db : DB) (fault : Option SqlError) : HResult :=
  match fault with
  | some _ =>
    { resp := { status := 500, success := false,
                message := some ("Error fetching students"),
                data := none, count := none },
      db := db, acquired := 1, released := 0 }
  | none =>
    let rows := selectAllOrdered db
    { resp := { status := 200, success := true, message := none,
                data := some (.many rows), count := some rows.length },
      db := db, acquired := 1, released := 1 }

/-- Handler of `GET /students/:rollnumber` (`src/index.js` lines
71-99). -/
def getStudentByRoll (db : DB) (roll : String) (fault : Option SqlError) :
    HResult :=
  match fault with
  | some _ =>
    { resp := { status := 500, success := false,
                message := some ("Error fetching student"),
                data := none, count := none },
      db := db, acquired := 1, released := 0 }
  | none =>
    match selectByRoll db roll with
    | [] =>
      { resp := { status := 404, success := false,
                  message := some ("Student not found"),
                  data := none, count := none },
        db := db, acquired := 1, released := 1 }
    | s :: _ =>
      { resp := { status := 200, success := true, message := none,
                  data := some (.one s), count := none },
        db := db, acquired := 1, released := 1 }

/-- Handler of `POST /students` (`src/index.js` lines 102-139): the
falsy-field check runs before `pool.connect()`; the `catch` block maps
error code `23505` to 409 and everything else to 500. -/
def createStudent (db : DB) (body : CreateBody) (fault : Option SqlError) :
    HResult :=
  if falsyStr body.name || falsyInt body.age ||
      falsyStr body.rollnumber || falsyStr body.city then
    { resp := { status := 400, success := false,
                message := some ("All fields required: name, age, rollnumber, city"),
                data := none, count := none },
      db := db, acquired := 0, released := 0 }
  else
    let outcome : Except SqlError (DB × Student) :=
      match fault with
      | some e => .error e
      | none =>
        insertStudent db (body.name.getD ("")) (body.age.getD 0)
          (body.rollnumber.getD ("")) (body.city.getD (""))
    match outcome with
    | .error e =>
      if e.code == "23505" then
        { resp := { status := 409, success := false,
                    message := some ("Roll number already exists"),
                    data := none, count := none },
          db := db, acquired := 1, released := 0 }
      else
        { resp := { status := 500, success := false,
                    message := some ("Error creating student"),
                    data := none, count := none },
          db := db, acquired := 1, released := 0 }
    | .ok (db2, s) =>
      { resp := { status := 201, success := true,
                  message := some ("Student created successfully"),
                  data := some (.one s), count := none },
        db := db2, acquired := 1, released := 1 }

/-- Handler of `PUT /students/:rollnumber` (`src/index.js` lines
142-178): the release happens right after the query, before the
empty-result check. -/
def putStudent (db : DB) (roll : String) (body : UpdateBody)
    (fault : Option SqlError) : HResult :=
  match fault with
  | some _ =>
    { resp := { status := 500, success := false,
                message := some ("Error updating student"),
                data := none, count := none },
      db := db, acquired := 1, released := 0 }
  | none =>
    let res := updateRows db body.name.toParam body.age.toParam
      body.city.toParam roll
    match res.2 with
    | [] =>
      { resp := { status := 404, success := false,
                  message := some ("Student not found"),
                  data := none, count := none },
        db := res.1, acquired := 1, released := 1 }
    | s :: _ =>
      { resp := { status := 200, success := true,
                  message := some ("Student updated successfully"),
                  data := some (.one s), count := none },
        db := res.1, acquired := 1, released := 1 }

/-- Handler of `DELETE /students/:rollnumber` (`src/index.js` lines
181-210). -/
def deleteStudent (db : DB) (roll : String) (fault : Option SqlError) :
    HResult :=
  match fault with
  | some _ =>
    { resp := { status := 500, success := false,
                message := some ("Error deleting student"),
                data := none, count := none },
      db := db, acquired := 1, released := 0 }
  | none =>
    let res := deleteRows db roll
    match res.2 with
    | [] =>
      { resp := { status := 404, success := false,
                  message := some ("Student not found"),
                  data := none, count := none },
        db := res.1, acquired := 1, released := 1 }
    | s :: _ =>
      { resp := { status := 200, success := true,
                  message := some ("Student deleted successfully"),
                  data := some (.one s), count := none },
        db := res.1, acquired := 1, released := 1 }

/-! ### Startup (`src/databaseConnection.js`, `startServer`) -/

/-- Environment of the startup connectivity check: whether
`pool.connect()` succeeds and whether the liveness query
`SELECT NOW()` succeeds. -/
structure DBEnv where
  connectOk : Bool
  queryOk : Bool
deriving Repr, DecidableEq

/-- Body of the `try` block of `connectDB`
(`src/databaseConnection.js` lines 17-26): connect, run the liveness
query, release, return `true`; either await can reject. -/
def connectDBTry (env : DBEnv) : Except SqlError Bool :=
  if !env.connectOk then .error { code := "ECONNREFUSED" }
  else if !env.queryOk then .error { code := "query-failed" }
  else .ok true

/-- Function `connectDB` (`src/databaseConnection.js` lines 16-31): the `catch`
turns any failure into `false`, so the function returns a boolean and
never raises. -/
def connectDB (env : DBEnv) : Bool :=
  match connectDBTry env with
  | .ok b => b
  | .error _ => false

/-- Observable outcome of `startServer`: either the HTTP listener is
bound on a port, or the process terminates with an exit code. -/
inductive ServerAction where
  | listen (port : Nat)
  | exitProcess (code : Nat)
deriving Repr, DecidableEq

/-- Function `startServer` (`src/index.js` lines 213-242): if `connectDB`
reports success the table is initialized (errors there are swallowed
by `initTable`'s own catch) and the listener binds port 9000;
otherwise the process exits with status 1 and no listener is ever
bound. -/
def startServer (env : DBEnv) : ServerAction :=
  if connectDB env then .listen 9000 else .exitProcess 1

/-! ### Helper lemmas about the key-indexed row list -/

/-- Filtering by a key held by no element of the list yields nothing. -/
lemma filter_roll_nil (l : List Student) (roll : String)
    (h : ∀ t ∈ l, t.rollnumber ≠ roll) :
    l.filter (fun t => t.rollnumber == roll) = [] := by
  induction l with
  | nil => rfl
  | cons a as ih =>
    rw [List.filter_cons_of_neg, ih]
    · intro t ht
      exact h t (List.mem_cons_of_mem a ht)
    · simpa using h a (List.mem_cons_self a as)

/-- With distinct rollnumbers, filtering by the key of an element of
the list yields exactly that element. -/
lemma filter_roll_unique (l : List Student) (s : Student) (roll : String)
    (hnd : (l.map Student.rollnumber).Nodup) (hmem : s ∈ l)
    (hs : s.rollnumber = roll) :
    l.filter (fun t => t.rollnumber == roll) = [s] := by
  induction l with
  | nil => cases hmem
  | cons a as ih =>
    rw [List.map_cons, List.nodup_cons] at hnd
    obtain ⟨hna, hnd'⟩ := hnd
    rcases List.mem_cons.mp hmem with rfl | hmem'
    · rw [List.filter_cons_of_pos (by simpa using hs)]
      rw [filter_roll_nil]
      intro t ht htr
      exact hna (hs ▸ htr ▸ List.mem_map_of_mem Student.rollnumber ht)
    · have haroll : a.rollnumber ≠ roll := by
        intro h
        exact hna (h.trans hs.symm ▸
          List.mem_map_of_mem Student.rollnumber hmem')
      rw [List.filter_cons_of_neg (by simpa using haroll)]
      exact ih hnd' hmem'

/-- Filtering a mapped list is mapping the list filtered through the
composed predicate. -/
lemma filter_map_comm (l : List Student) (f : Student → Student)
    (p : Student → Bool) :
    (l.map f).filter p = (l.filter (fun t => p (f t))).map f := by
  induction l with
  | nil => rfl
  | cons a as ih =>
    simp only [List.map_cons, List.filter_cons]
    by_cases h : p (f a) = true <;> simp [h, ih]

/-- Deleting by a key then filtering by the same key yields nothing. -/
lemma filter_after_remove (l : List Student) (roll : String) :
    ((l.filter (fun t => !(t.rollnumber == roll))).filter
      (fun t => t.rollnumber == roll)) = [] := by
  apply filter_roll_nil
  intro t ht
  have := List.of_mem_filter ht
  simpa using this

/-- The COALESCE assignments never touch the rollnumber column. -/
lemma coalesceRow_rollnumber (n : Option String) (a : Option Int)
    (c : Option String) (s : Student) :
    (coalesceRow n a c s).rollnumber = s.rollnumber := rfl

/-- The per-row function of `updateRows` preserves the rollnumber. -/
lemma upd_roll (n : Option String) (a : Option Int) (c : Option String)
    (roll : String) (t : Student) :
    ((if t.rollnumber == roll then coalesceRow n a c t else t)).rollnumber
      = t.rollnumber := by
  split <;> rfl

/-- With all three parameters NULL, the COALESCE row rewrite is the
identity. -/
lemma coalesceRow_none (s : Student) : coalesceRow none none none s = s := rfl

/-- On a well-formed store, updating an existing key returns exactly
the merged record. -/
lemma updateRows_existing (db : DB) (s : Student) (roll : String)
    (n : Option String) (a : Option Int) (c : Option String)
    (hwf : db.wf) (hmem : s ∈ db.rows) (hs : s.rollnumber = roll) :
    (updateRows db n a c roll).2 = [coalesceRow n a c s] := by
  unfold updateRows
  simp only
  rw [filter_map_comm]
  have hpred : (fun t =>
      ((if t.rollnumber == roll then coalesceRow n a c t else t).rollnumber
        == roll)) = fun t => (t.rollnumber == roll) := by
    funext t
    rw [upd_roll]
  rw [hpred, filter_roll_unique db.rows s roll hwf hmem hs,
    List.map_cons, List.map_nil, if_pos (by simpa using hs)]

/-! ### Claim theorems -/

/-- C1: a create request whose rollnumber already exists in the store
is answered with status 409 (the unique-violation code 23505 is mapped
to 409, not to the generic 500), the envelope has `success = false`,
and the store — in particular the previously stored record with that
rollnumber — is unchanged. -/
theorem post_duplicate_conflict (db : DB) (body : CreateBody) (s : Student)
    (hn : falsyStr body.name = false) (ha : falsyInt body.age = false)
    (hr : falsyStr body.rollnumber = false) (hc : falsyStr body.city = false)
    (hmem : s ∈ db.rows) (hs : s.rollnumber = body.rollnumber.getD ("")) :
    (createStudent db body none).resp.status = 409 ∧
    (createStudent db body none).resp.success = false ∧
    (createStudent db body none).db = db ∧
    s ∈ (createStudent db body none).db.rows := by
  have hdup : db.rows.any
      (fun t => t.rollnumber == body.rollnumber.getD ("")) = true := by
    rw [List.any_eq_true]
    exact ⟨s, hmem, by simpa using hs⟩
  simp [createStudent, insertStudent, hn, ha, hr, hc, hdup, hmem]

/-- Witness for C1 at a concrete store and request. -/
theorem post_duplicate_conflict_witness :
    (createStudent ⟨[⟨1, "Alice", 20, "R1", "Pune", 0⟩], 2, 5⟩
        ⟨some ("Bob"), some 21, some ("R1"), some ("Delhi")⟩ none).resp.status = 409 ∧
    (createStudent ⟨[⟨1, "Alice", 20, "R1", "Pune", 0⟩], 2, 5⟩
        ⟨some ("Bob"), some 21, some ("R1"), some ("Delhi")⟩ none).resp.success = false ∧
    (createStudent ⟨[⟨1, "Alice", 20, "R1", "Pune", 0⟩], 2, 5⟩
        ⟨some ("Bob"), some 21, some ("R1"), some ("Delhi")⟩ none).db =
      ⟨[⟨1, "Alice", 20, "R1", "Pune", 0⟩], 2, 5⟩ ∧
    (⟨1, "Alice", 20, "R1", "Pune", 0⟩ : Student) ∈
      (createStudent ⟨[⟨1, "Alice", 20, "R1", "Pune", 0⟩], 2, 5⟩
        ⟨some ("Bob"), some 21, some ("R1"), some ("Delhi")⟩ none).db.rows :=
  post_duplicate_conflict ⟨[⟨1, "Alice", 20, "R1", "Pune", 0⟩], 2, 5⟩
    ⟨some ("Bob"), some 21, some ("R1"), some ("Delhi")⟩
    ⟨1, "Alice", 20, "R1", "Pune", 0⟩
    (by decide) (by decide) (by decide) (by decide) (by decide) (by decide)

/-- C4: a create request with any of the four fields absent or falsy is
answered 400 with `success = false`, the store is unchanged, and no
connection is ever acquired (the check runs before `pool.connect()`,
so storage is not touched), whatever the store would have done. -/
theorem post_missing_field_400 (db : DB) (body : CreateBody)
    (fault : Option SqlError)
    (h : (falsyStr body.name || falsyInt body.age ||
          falsyStr body.rollnumber || falsyStr body.city) = true) :
    (createStudent db body fault).resp.status = 400 ∧
    (createStudent db body fault).resp.success = false ∧
    (createStudent db body fault).db = db ∧
    (createStudent db body fault).acquired = 0 := by
  simp [createStudent, h]

/-- Witness for C4: create with the name field absent. -/
theorem post_missing_field_400_witness :
    (createStudent ⟨[], 1, 0⟩ ⟨none, some 21, some ("R2"), some ("Delhi")⟩
        none).resp.status = 400 ∧
    (createStudent ⟨[], 1, 0⟩ ⟨none, some 21, some ("R2"), some ("Delhi")⟩
        none).resp.success = false ∧
    (createStudent ⟨[], 1, 0⟩ ⟨none, some 21, some ("R2"), some ("Delhi")⟩
        none).db = ⟨[], 1, 0⟩ ∧
    (createStudent ⟨[], 1, 0⟩ ⟨none, some 21, some ("R2"), some ("Delhi")⟩
        none).acquired = 0 :=
  post_missing_field_400 ⟨[], 1, 0⟩ ⟨none, some 21, some ("R2"), some ("Delhi")⟩
    none (by decide)

/-- C5: for any stored rows, in any insertion order, `GET /students`
answers 200 with `success = true`, a data array that is a permutation
of the stored rows sorted by rollnumber ascending, and a count
field. -/
theorem get_all_sorted (db : DB) :
    (getAllStudents db none).resp.status = 200 ∧
    (getAllStudents db none).resp.success = true ∧
    (getAllStudents db none).resp.data =
      some (RespData.many (selectAllOrdered db)) ∧
    (selectAllOrdered db).Perm db.rows ∧
    List.Sorted rollLe (selectAllOrdered db) ∧
    (getAllStudents db none).resp.count = some (selectAllOrdered db).length :=
  ⟨rfl, rfl, rfl, List.perm_insertionSort rollLe db.rows,
    List.sorted_insertionSort rollLe db.rows, rfl⟩

/-- C10: every successful `GET /students` response carries
`count = (length of the data array)`, and on an empty store (any
counter and clock values) the response is 200 with data `[]` and count
`0`, not a 404. -/
theorem get_all_count (db : DB) (n t : Nat) :
    ((getAllStudents db none).resp.data =
        some (RespData.many (selectAllOrdered db)) ∧
     (getAllStudents db none).resp.count =
        some (selectAllOrdered db).length) ∧
    ((getAllStudents ⟨[], n, t⟩ none).resp.status = 200 ∧
     (getAllStudents ⟨[], n, t⟩ none).resp.data = some (RespData.many []) ∧
     (getAllStudents ⟨[], n, t⟩ none).resp.count = some 0) :=
  ⟨⟨rfl, rfl⟩, rfl, rfl, rfl⟩

/-- C7: when either step of the connectivity check fails, `connectDB`
returns `false` (it is a total boolean function: the catch swallows
the raise), and `startServer` terminates the process with exit status
1 — it never reaches `app.listen`, so no listener is bound. -/
theorem startup_failure_exits (env : DBEnv)
    (h : env.connectOk = false ∨ env.queryOk = false) :
    connectDB env = false ∧
    startServer env = ServerAction.exitProcess 1 := by
  have hc : connectDB env = false := by
    rcases h with h | h
    · simp [connectDB, connectDBTry, h]
    · cases hco : env.connectOk <;>
        simp [connectDB, connectDBTry, h, hco]
  exact ⟨hc, by simp [startServer, hc]⟩

/-- Witness for C7: the liveness query fails. -/
theorem startup_failure_exits_witness :
    connectDB ⟨true, false⟩ = false ∧
    startServer ⟨true, false⟩ = ServerAction.exitProcess 1 :=
  startup_failure_exits ⟨true, false⟩ (Or.inr rfl)

/-- C3 is false on the code: when the awaited query rejects, every one
of the five handlers jumps to its `catch` block without ever calling
`client.release()` (there is no `finally`), so the acquired pooled
connection is not returned.  Evaluated here at a concrete store and
error for all five routes: each handler acquired one connection and
released zero. -/
theorem connection_leak_on_query_error :
    (getAllStudents ⟨[⟨1, "Alice", 20, "R1", "Pune", 0⟩], 2, 5⟩
        (some ⟨"boom"⟩)).acquired = 1 ∧
    (getAllStudents ⟨[⟨1, "Alice", 20, "R1", "Pune", 0⟩], 2, 5⟩
        (some ⟨"boom"⟩)).released = 0 ∧
    (getStudentByRoll ⟨[⟨1, "Alice", 20, "R1", "Pune", 0⟩], 2, 5⟩ "R1"
        (some ⟨"boom"⟩)).acquired = 1 ∧
    (getStudentByRoll ⟨[⟨1, "Alice", 20, "R1", "Pune", 0⟩], 2, 5⟩ "R1"
        (some ⟨"boom"⟩)).released = 0 ∧
    (createStudent ⟨[⟨1, "Alice", 20, "R1", "Pune", 0⟩], 2, 5⟩
        ⟨some ("Bob"), some 21, some ("R2"), some ("Delhi")⟩
        (some ⟨"boom"⟩)).acquired = 1 ∧
    (createStudent ⟨[⟨1, "Alice", 20, "R1", "Pune", 0⟩], 2, 5⟩
        ⟨some ("Bob"), some 21, some ("R2"), some ("Delhi")⟩
        (some ⟨"boom"⟩)).released = 0 ∧
    (putStudent ⟨[⟨1, "Alice", 20, "R1", "Pune", 0⟩], 2, 5⟩ "R1"
        ⟨.absent, .absent, .absent⟩ (some ⟨"boom"⟩)).acquired = 1 ∧
    (putStudent ⟨[⟨1, "Alice", 20, "R1", "Pune", 0⟩], 2, 5⟩ "R1"
        ⟨.absent, .absent, .absent⟩ (some ⟨"boom"⟩)).released = 0 ∧
    (deleteStudent ⟨[⟨1, "Alice", 20, "R1", "Pune", 0⟩], 2, 5⟩ "R1"
        (some ⟨"boom"⟩)).acquired = 1 ∧
    (deleteStudent ⟨[⟨1, "Alice", 20, "R1", "Pune", 0⟩], 2, 5⟩ "R1"
        (some ⟨"boom"⟩)).released = 0 := by
  decide

/-- Characterization of the update handler on an existing key: it
answers 200 with the merged record and rewrites exactly the matching
row. -/
lemma putStudent_existing (db : DB) (s : Student) (roll : String)
    (body : UpdateBody)
    (hwf : db.wf) (hmem : s ∈ db.rows) (hs : s.rollnumber = roll) :
    putStudent db roll body none =
      { resp := { status := 200, success := true,
                  message := some ("Student updated successfully"),
                  data := some (RespData.one (coalesceRow body.name.toParam
                    body.age.toParam body.city.toParam s)),
                  count := none },
        db := { db with rows := db.rows.map (fun t =>
          if t.rollnumber == roll then
            coalesceRow body.name.toParam body.age.toParam body.city.toParam t
          else t) },
        acquired := 1, released := 1 } := by
  have h2 := updateRows_existing db s roll body.name.toParam body.age.toParam
    body.city.toParam hwf hmem hs
  simp only [putStudent]
  rw [h2]
  simp [updateRows]

/-- Characterization of the delete handler on an existing key: it
answers 200 with the deleted record and removes exactly the matching
row. -/
lemma deleteStudent_existing (db : DB) (s : Student) (roll : String)
    (hwf : db.wf) (hmem : s ∈ db.rows) (hs : s.rollnumber = roll) :
    deleteStudent db roll none =
      { resp := { status := 200, success := true,
                  message := some ("Student deleted successfully"),
                  data := some (RespData.one s), count := none },
        db := { db with rows :=
          db.rows.filter (fun t => !(t.rollnumber == roll)) },
        acquired := 1, released := 1 } := by
  have h2 : (deleteRows db roll).2 = [s] :=
    filter_roll_unique db.rows s roll hwf hmem hs
  simp only [deleteStudent]
  rw [h2]
  simp [deleteRows]

/-- C2: updating an existing rollnumber merges COALESCE-style — every
field the body leaves out (absent, hence SQL NULL) keeps its stored
value — and answers 200 with the merged record, which is exactly what
is stored afterwards.  In particular a body carrying only `city`
leaves `name` and `age` unchanged. -/
theorem put_partial_merge (db : DB) (s : Student) (roll : String)
    (body : UpdateBody)
    (hwf : db.wf) (hmem : s ∈ db.rows) (hs : s.rollnumber = roll) :
    (putStudent db roll body none).resp.status = 200 ∧
    (putStudent db roll body none).resp.success = true ∧
    (putStudent db roll body none).resp.data =
      some (RespData.one (coalesceRow body.name.toParam body.age.toParam
        body.city.toParam s)) ∧
    (body.name = JsonField.absent →
      (coalesceRow body.name.toParam body.age.toParam body.city.toParam
        s).name = s.name) ∧
    (body.age = JsonField.absent →
      (coalesceRow body.name.toParam body.age.toParam body.city.toParam
        s).age = s.age) ∧
    (body.city = JsonField.absent →
      (coalesceRow body.name.toParam body.age.toParam body.city.toParam
        s).city = s.city) ∧
    coalesceRow body.name.toParam body.age.toParam body.city.toParam s ∈
      (putStudent db roll body none).db.rows := by
  rw [putStudent_existing db s roll body hwf hmem hs]
  refine ⟨rfl, rfl, rfl, ?_, ?_, ?_, ?_⟩
  · intro h; rw [h]; rfl
  · intro h; rw [h]; rfl
  · intro h; rw [h]; rfl
  · have hmem2 := List.mem_map_of_mem (fun t =>
      if t.rollnumber == roll then
        coalesceRow body.name.toParam body.age.toParam body.city.toParam t
      else t) hmem
    dsimp only at hmem2
    rw [if_pos (by simpa using hs)] at hmem2
    exact hmem2

/-- Witness for C2: a body carrying only `city` rewrites Alice's city
and keeps her name and age. -/
theorem put_partial_merge_witness :
    (putStudent ⟨[⟨1, "Alice", 20, "R1", "Pune", 0⟩], 2, 5⟩ "R1"
        ⟨.absent, .absent, .val ("Delhi")⟩ none).resp.status = 200 ∧
    (putStudent ⟨[⟨1, "Alice", 20, "R1", "Pune", 0⟩], 2, 5⟩ "R1"
        ⟨.absent, .absent, .val ("Delhi")⟩ none).resp.success = true ∧
    (putStudent ⟨[⟨1, "Alice", 20, "R1", "Pune", 0⟩], 2, 5⟩ "R1"
        ⟨.absent, .absent, .val ("Delhi")⟩ none).resp.data =
      some (RespData.one (coalesceRow (JsonField.absent : JsonField String).toParam
        (JsonField.absent : JsonField Int).toParam
        (JsonField.val ("Delhi")).toParam ⟨1, "Alice", 20, "R1", "Pune", 0⟩)) ∧
    ((JsonField.absent : JsonField String) = JsonField.absent →
      (coalesceRow (JsonField.absent : JsonField String).toParam
        (JsonField.absent : JsonField Int).toParam
        (JsonField.val ("Delhi")).toParam
        ⟨1, "Alice", 20, "R1", "Pune", 0⟩).name = "Alice") ∧
    ((JsonField.absent : JsonField Int) = JsonField.absent →
      (coalesceRow (JsonField.absent : JsonField String).toParam
        (JsonField.absent : JsonField Int).toParam
        (JsonField.val ("Delhi")).toParam
        ⟨1, "Alice", 20, "R1", "Pune", 0⟩).age = 20) ∧
    ((JsonField.val ("Delhi") : JsonField String) = JsonField.absent →
      (coalesceRow (JsonField.absent : JsonField String).toParam
        (JsonField.absent : JsonField Int).toParam
        (JsonField.val ("Delhi")).toParam
        ⟨1, "Alice", 20, "R1", "Pune", 0⟩).city = "Pune") ∧
    coalesceRow (JsonField.absent : JsonField String).toParam
      (JsonField.absent : JsonField Int).toParam
      (JsonField.val ("Delhi")).toParam ⟨1, "Alice", 20, "R1", "Pune", 0⟩ ∈
      (putStudent ⟨[⟨1, "Alice", 20, "R1", "Pune", 0⟩], 2, 5⟩ "R1"
        ⟨.absent, .absent, .val ("Delhi")⟩ none).db.rows :=
  put_partial_merge ⟨[⟨1, "Alice", 20, "R1", "Pune", 0⟩], 2, 5⟩
    ⟨1, "Alice", 20, "R1", "Pune", 0⟩ "R1" ⟨.absent, .absent, .val ("Delhi")⟩
    (by decide) (by decide) (by decide)

/-- C8: an update with an empty body (all three fields absent) on an
existing rollnumber is an identity operation: 200, the stored record
is returned, and the store is unchanged. -/
theorem put_empty_body_identity (db : DB) (s : Student) (roll : String)
    (hwf : db.wf) (hmem : s ∈ db.rows) (hs : s.rollnumber = roll) :
    (putStudent db roll ⟨.absent, .absent, .absent⟩ none).resp.status = 200 ∧
    (putStudent db roll ⟨.absent, .absent, .absent⟩ none).resp.success
      = true ∧
    (putStudent db roll ⟨.absent, .absent, .absent⟩ none).resp.data =
      some (RespData.one s) ∧
    (putStudent db roll ⟨.absent, .absent, .absent⟩ none).db = db := by
  rw [putStudent_existing db s roll ⟨.absent, .absent, .absent⟩ hwf hmem hs]
  have hfun : (fun t : Student =>
      if t.rollnumber == roll then coalesceRow none none none t else t)
        = id := by
    funext t
    rw [coalesceRow_none]
    split <;> rfl
  refine ⟨rfl, rfl, rfl, ?_⟩
  show ({ db with rows := db.rows.map _ } : DB) = db
  rw [show (fun t : Student =>
      if t.rollnumber == roll then
        coalesceRow (JsonField.absent : JsonField String).toParam
          (JsonField.absent : JsonField Int).toParam
          (JsonField.absent : JsonField String).toParam t
      else t) = id from hfun, List.map_id]

/-- Witness for C8 at a concrete one-row store. -/
theorem put_empty_body_identity_witness :
    (putStudent ⟨[⟨1, "Alice", 20, "R1", "Pune", 0⟩], 2, 5⟩ "R1"
        ⟨.absent, .absent, .absent⟩ none).resp.status = 200 ∧
    (putStudent ⟨[⟨1, "Alice", 20, "R1", "Pune", 0⟩], 2, 5⟩ "R1"
        ⟨.absent, .absent, .absent⟩ none).resp.success = true ∧
    (putStudent ⟨[⟨1, "Alice", 20, "R1", "Pune", 0⟩], 2, 5⟩ "R1"
        ⟨.absent, .absent, .absent⟩ none).resp.data =
      some (RespData.one ⟨1, "Alice", 20, "R1", "Pune", 0⟩) ∧
    (putStudent ⟨[⟨1, "Alice", 20, "R1", "Pune", 0⟩], 2, 5⟩ "R1"
        ⟨.absent, .absent, .absent⟩ none).db =
      ⟨[⟨1, "Alice", 20, "R1", "Pune", 0⟩], 2, 5⟩ :=
  put_empty_body_identity ⟨[⟨1, "Alice", 20, "R1", "Pune", 0⟩], 2, 5⟩
    ⟨1, "Alice", 20, "R1", "Pune", 0⟩ "R1" (by decide) (by decide) (by decide)

/-- C9: in the update handler a field present with value `null` is
indistinguishable from an absent field — both are serialized as SQL
NULL, so the whole handler result (response, store, connection
counters) is identical; the COALESCE merge therefore leaves the
stored value unchanged in both cases and can never store a null. -/
theorem put_null_eq_absent (db : DB) (roll : String)
    (fault : Option SqlError) (n : JsonField String) (a : JsonField Int)
    (c : JsonField String) :
    putStudent db roll ⟨JsonField.null, a, c⟩ fault =
      putStudent db roll ⟨JsonField.absent, a, c⟩ fault ∧
    putStudent db roll ⟨n, JsonField.null, c⟩ fault =
      putStudent db roll ⟨n, JsonField.absent, c⟩ fault ∧
    putStudent db roll ⟨n, a, JsonField.null⟩ fault =
      putStudent db roll ⟨n, a, JsonField.absent⟩ fault := by
  refine ⟨?_, ?_, ?_⟩ <;> cases fault <;> rfl

/-- C6: deleting an existing rollnumber answers 200 with the deleted
record; a subsequent GET of that rollnumber answers 404, and repeating
the same DELETE also answers a plain 404 envelope (no crash). -/
theorem delete_then_gone (db : DB) (s : Student) (roll : String)
    (hwf : db.wf) (hmem : s ∈ db.rows) (hs : s.rollnumber = roll) :
    (deleteStudent db roll none).resp.status = 200 ∧
    (deleteStudent db roll none).resp.success = true ∧
    (deleteStudent db roll none).resp.data = some (RespData.one s) ∧
    (getStudentByRoll (deleteStudent db roll none).db roll none).resp.status
      = 404 ∧
    (getStudentByRoll (deleteStudent db roll none).db roll none).resp.success
      = false ∧
    (deleteStudent (deleteStudent db roll none).db roll none).resp.status
      = 404 ∧
    (deleteStudent (deleteStudent db roll none).db roll none).resp.success
      = false := by
  rw [deleteStudent_existing db s roll hwf hmem hs]
  have hempty := filter_after_remove db.rows roll
  refine ⟨rfl, rfl, rfl, ?_, ?_, ?_, ?_⟩
  · simp [getStudentByRoll, selectByRoll, hempty]
  · simp [getStudentByRoll, selectByRoll, hempty]
  · simp [deleteStudent, deleteRows, hempty]
  · simp [deleteStudent, deleteRows, hempty]

/-- Witness for C6 at a concrete one-row store. -/
theorem delete_then_gone_witness :
    (deleteStudent ⟨[⟨1, "Alice", 20, "R1", "Pune", 0⟩], 2, 5⟩ "R1"
        none).resp.status = 200 ∧
    (deleteStudent ⟨[⟨1, "Alice", 20, "R1", "Pune", 0⟩], 2, 5⟩ "R1"
        none).resp.success = true ∧
    (deleteStudent ⟨[⟨1, "Alice", 20, "R1", "Pune", 0⟩], 2, 5⟩ "R1"
        none).resp.data = some (RespData.one ⟨1, "Alice", 20, "R1", "Pune", 0⟩) ∧
    (getStudentByRoll
        ((deleteStudent ⟨[⟨1, "Alice", 20, "R1", "Pune", 0⟩], 2, 5⟩ "R1"
          none).db) "R1" none).resp.status = 404 ∧
    (getStudentByRoll
        ((deleteStudent ⟨[⟨1, "Alice", 20, "R1", "Pune", 0⟩], 2, 5⟩ "R1"
          none).db) "R1" none).resp.success = false ∧
    (deleteStudent
        ((deleteStudent ⟨[⟨1, "Alice", 20, "R1", "Pune", 0⟩], 2, 5⟩ "R1"
          none).db) "R1" none).resp.status = 404 ∧
    (deleteStudent
        ((deleteStudent ⟨[⟨1, "Alice", 20, "R1", "Pune", 0⟩], 2, 5⟩ "R1"
          none).db) "R1" none).resp.success = false :=
  delete_then_gone ⟨[⟨1, "Alice", 20, "R1", "Pune", 0⟩], 2, 5⟩
    ⟨1, "Alice", 20, "R1", "Pune", 0⟩ "R1" (by decide) (by decide) (by decide)

end CRUD
